import Mathlib

/-!
Verification of the Navara AI drug-repurposing core against its
natural-language specification.

The repository ships only the React frontend (two variants of
`App.jsx`), the README, and shell scripts; the backend pipeline
(`graph_builder.py`, `scorer.py`, `drug_filter.py`,
`clinical_validator.py`, the progress stream) is declared in the README
project layout but its source is not in the repository.  Those
components are therefore modelled from the specification (spec.md,
sections 3, 4, 6 and 7), while the frontend request construction and
stream-event handling are embedded directly from
`src/frontend/src/App.jsx` and the `App.jsx` variant embedded in
`src/unnamed/part_001`.

Scores are modelled as rationals in [0,1].
-/

namespace Navara

/-- Modelled from the spec: severity of a `ContraindicationRule`
(spec section 3); the backend `drug_filter.py` is not in the repository. -/
inductive Severity
  | absolute
  | relative
deriving DecidableEq, Repr

/-- Modelled from the spec: a contraindication rule (spec section 3):
drug tag or identifier, disease tag or identifier, severity, rationale. -/
structure ContraindicationRule where
  drugTag : String
  diseaseTag : String
  severity : Severity
  rationale : String
deriving DecidableEq, Repr

/-- Modelled from the spec: a gene record from the Provider
(spec section 3, `GeneNode`). -/
structure GeneNode where
  gid : String
  symbol : String
  assoc : ℚ
deriving DecidableEq, Repr

/-- Modelled from the spec: a pathway record (spec section 3, `PathwayNode`). -/
structure PathwayNode where
  pid : String
  pname : String
  memberGenes : List String
deriving DecidableEq, Repr

/-- Modelled from the spec: a drug record (spec section 3, `DrugNode`). -/
structure DrugNode where
  did : String
  dname : String
  indication : String
  targets : List String
  contraTags : List String
deriving DecidableEq, Repr

/-- Modelled from the spec: edge types of the knowledge graph
(spec section 3, `GraphEdge`). -/
inductive EdgeType
  | diseaseGene
  | genePathway
  | drugGene
  | drugDisease
deriving DecidableEq, Repr

/-- Modelled from the spec: a typed weighted edge (spec section 3). -/
structure GraphEdge where
  src : String
  dst : String
  etype : EdgeType
  weight : ℚ
deriving DecidableEq, Repr

/-- Modelled from the spec: the normalized record set the Provider returns
for one disease query (spec sections 2 and 4.1); `diseaseName = none`
models the Provider returning no disease match (`NotFound`). -/
structure ProviderSnapshot where
  diseaseName : Option String
  genes : List GeneNode
  pathways : List PathwayNode
  drugs : List DrugNode
  edges : List GraphEdge
deriving DecidableEq, Repr

/-- Modelled from the spec: the knowledge graph built for one disease
query (spec section 3, `KnowledgeGraph`). -/
structure KnowledgeGraph where
  disease : String
  genes : List GeneNode
  pathways : List PathwayNode
  drugs : List DrugNode
  edges : List GraphEdge
deriving DecidableEq, Repr

/-- Modelled from the spec: scoring configuration (spec sections 4.2 and
9): the four composite weights, the top-K normalisation cutoff and the
relative-contraindication strictness flag. -/
structure ScoringConfig where
  wGene : ℚ
  wPath : ℚ
  wProx : ℚ
  wPrior : ℚ
  topK : Nat
  strictRelative : Bool
deriving DecidableEq, Repr

/-- Modelled from the spec: an immutable analysis request
(spec sections 3 and 6, `DiseaseQuery`). -/
structure DiseaseQuery where
  queryName : String
  minScore : ℚ
  maxResults : Nat
deriving DecidableEq, Repr

/-- Modelled from the spec: a scored candidate (spec section 3,
`CandidateScore`). -/
structure CandidateScore where
  drugId : String
  drugName : String
  indication : String
  compositeScore : ℚ
  geneTargetScore : ℚ
  pathwayOverlapScore : ℚ
  networkProximityScore : ℚ
  priorEvidenceScore : ℚ
  confidence : String
  sharedGenes : List String
  sharedPathways : List String
  explanation : String
deriving DecidableEq, Repr

/-- Modelled from the spec: a candidate removed by the Safety Filter,
carrying the triggering rule (spec section 4.3). -/
structure FilteredEntry where
  candidate : CandidateScore
  rule : ContraindicationRule
deriving DecidableEq, Repr

/-- Modelled from the spec: the `complete` payload of an analysis
(spec section 6). -/
structure AnalysisResult where
  outName : String
  diseaseGenes : List String
  diseasePathways : List String
  candidates : List CandidateScore
  filteredCount : Nat
  filteredDrugs : List FilteredEntry
  totalNodes : Nat
  totalEdges : Nat
deriving DecidableEq, Repr

/-- Modelled from the spec: the error taxonomy (spec section 7). -/
inductive AnalysisError
  | notFound
  | invalidQuery
  | providerDown
deriving DecidableEq, Repr

/-- Keep the first record for each identifier, tracking the identifiers
already kept (spec section 4.1: deduplicates nodes by stable
identifier). -/
def dedupeByAux (key : α → String) (seen : List String) : List α → List α
  | [] => []
  | a :: rest =>
      if key a ∈ seen then dedupeByAux key seen rest
      else a :: dedupeByAux key (key a :: seen) rest

/-- Keep the first record for each identifier (spec section 4.1). -/
def dedupeBy (key : α → String) (l : List α) : List α := dedupeByAux key [] l

/-- Two edge reports describe the same edge when source, destination and
type agree (spec section 4.1). -/
def sameEdge (e f : GraphEdge) : Bool :=
  e.src == f.src && e.dst == f.dst && e.etype == f.etype

/-- The report for edge `e` with the highest confidence weight among all
reports of the same edge in `l` (spec section 4.1). -/
def bestWeight (l : List GraphEdge) (e : GraphEdge) : GraphEdge :=
  (l.filter fun f => sameEdge e f).foldl
    (fun acc f => if acc.weight < f.weight then { acc with weight := f.weight } else acc) e

/-- When the same edge is reported by several sources, retain one report
with the higher-confidence weight (spec section 4.1). -/
def mergeEdgesAux (all : List GraphEdge) (seen : List GraphEdge) :
    List GraphEdge → List GraphEdge
  | [] => []
  | e :: rest =>
      if seen.any fun f => sameEdge e f then mergeEdgesAux all seen rest
      else bestWeight all e :: mergeEdgesAux all (e :: seen) rest

/-- Deduplicate edge reports, keeping the higher-confidence weight for
each edge (spec section 4.1). -/
def mergeEdges (l : List GraphEdge) : List GraphEdge := mergeEdgesAux l [] l

/-- Modelled from the spec: the Graph Builder (spec section 4.1);
`graph_builder.py` is not in the repository.  Deduplicates nodes by
identifier and merges duplicate edge reports keeping the higher weight. -/
def buildGraph (d : String) (s : ProviderSnapshot) : KnowledgeGraph :=
  { disease := d
    genes := dedupeBy GeneNode.gid s.genes
    pathways := dedupeBy PathwayNode.pid s.pathways
    drugs := dedupeBy DrugNode.did s.drugs
    edges := mergeEdges s.edges }

/-- Clamp a rational into [0,1] (spec section 3: all scores lie in [0,1]). -/
def clamp01 (q : ℚ) : ℚ := max 0 (min 1 q)

/-- Descending order on rationals, used to pick the top-K association
strengths (spec section 4.2, step 1). -/
def descQ (a b : ℚ) : Prop := b ≤ a

instance : DecidableRel descQ := fun a b => inferInstanceAs (Decidable (b ≤ a))

instance : IsTotal ℚ descQ := ⟨fun a b => le_total b a⟩

instance : IsTrans ℚ descQ := ⟨fun _ _ _ h1 h2 => le_trans h2 h1⟩

/-- Sum of the disease's top-K gene association strengths, the
normaliser of `gene_target_score` (spec section 4.2, step 1). -/
def topKStrengthSum (cfg : ScoringConfig) (g : KnowledgeGraph) : ℚ :=
  (((g.genes.map GeneNode.assoc).insertionSort descQ).take cfg.topK).sum

/-- Disease genes among the drug's targets, in graph order
(spec section 3: `shared_genes` is an ordered subset of disease genes). -/
def matchedGenes (g : KnowledgeGraph) (d : DrugNode) : List GeneNode :=
  g.genes.filter fun gn => gn.gid ∈ d.targets

/-- Disease pathways reachable from the drug's targets
(spec section 4.2, step 2). -/
def drugPathways (g : KnowledgeGraph) (d : DrugNode) : List PathwayNode :=
  g.pathways.filter fun p => p.memberGenes.any fun mg => mg ∈ d.targets

/-- Spec section 4.2, step 1: sum of matched genes' strengths divided by
the sum of the disease's top-K strengths, clamped to 1. -/
def geneTargetScoreOf (cfg : ScoringConfig) (g : KnowledgeGraph) (d : DrugNode) : ℚ :=
  let den := topKStrengthSum cfg g
  if den = 0 then 0
  else clamp01 (((matchedGenes g d).map GeneNode.assoc).sum / den)

/-- Spec section 4.2, step 2: overlap between pathways reachable from the
drug's targets and the disease's associated pathways (all pathways of the
graph are disease-associated, so the overlap fraction is relative to the
disease pathway count). -/
def pathwayOverlapScoreOf (g : KnowledgeGraph) (d : DrugNode) : ℚ :=
  if g.pathways.length = 0 then 0
  else ((drugPathways g d).length : ℚ) / (g.pathways.length : ℚ)

/-- The historical drug-disease edge for this drug, when present
(spec section 4.2, step 4). -/
def historicalEdge (g : KnowledgeGraph) (d : DrugNode) : Option GraphEdge :=
  g.edges.find? fun e =>
    e.etype == EdgeType.drugDisease && e.src == d.did && e.dst == g.disease

/-- Shortest drug-to-disease path length recognised by the model:
1 via a historical edge, 2 via a shared target gene, 3 via a
gene-pathway-disease chain, none otherwise (spec section 4.2, step 3). -/
def proximityLength (g : KnowledgeGraph) (d : DrugNode) : Option Nat :=
  if (historicalEdge g d).isSome then some 1
  else if (matchedGenes g d).length ≠ 0 then some 2
  else if (drugPathways g d).length ≠ 0 then some 3
  else none

/-- Spec section 4.2, step 3: a monotonically decreasing function of the
shortest-path length; 0 when no path exists. -/
def networkProximityScoreOf (g : KnowledgeGraph) (d : DrugNode) : ℚ :=
  match proximityLength g d with
  | some 1 => 1
  | some 2 => 2 / 3
  | some 3 => 1 / 3
  | _ => 0

/-- Spec section 4.2, step 4: strength of any existing drug-disease
historical edge, 0 if none. -/
def priorEvidenceScoreOf (g : KnowledgeGraph) (d : DrugNode) : ℚ :=
  match historicalEdge g d with
  | some e => clamp01 e.weight
  | none => 0

/-- Spec section 4.2: confidence tier: High if composite at least 0.7 and
at least two sub-scores are non-zero; Medium if composite at least 0.4;
Low otherwise. -/
def confidenceTier (comp gts pos nps pes : ℚ) : String :=
  let nonzero := [gts, pos, nps, pes].countP fun x => x ≠ 0
  if 7 / 10 ≤ comp ∧ 2 ≤ nonzero then "High"
  else if 4 / 10 ≤ comp then "Medium"
  else "Low"

/-- Modelled from the spec: score one drug (spec section 4.2);
`scorer.py` is not in the repository. -/
def scoreDrug (cfg : ScoringConfig) (g : KnowledgeGraph) (d : DrugNode) : CandidateScore :=
  let gts := geneTargetScoreOf cfg g d
  let pos := pathwayOverlapScoreOf g d
  let nps := networkProximityScoreOf g d
  let pes := priorEvidenceScoreOf g d
  let comp := clamp01 (cfg.wGene * gts + cfg.wPath * pos + cfg.wProx * nps + cfg.wPrior * pes)
  { drugId := d.did
    drugName := d.dname
    indication := d.indication
    compositeScore := comp
    geneTargetScore := gts
    pathwayOverlapScore := pos
    networkProximityScore := nps
    priorEvidenceScore := pes
    confidence := confidenceTier comp gts pos nps pes
    sharedGenes := (matchedGenes g d).map GeneNode.gid
    sharedPathways := (drugPathways g d).map PathwayNode.pid
    explanation := "Candidate " ++ d.dname ++ " for " ++ g.disease ++
      " based on shared gene targets and pathway overlap." }

/-- A drug is connected to the disease subgraph when some modelled path
reaches the disease (spec section 4.2: drugs connected by at least one
short path are scored). -/
def isConnected (g : KnowledgeGraph) (d : DrugNode) : Bool :=
  (proximityLength g d).isSome

/-- Sort key for ranking: descending composite, then descending gene
target score, then descending pathway overlap, then ascending drug name
(spec section 4.2, tie-break). -/
def sortKey (c : CandidateScore) : ℚ ×ₗ (ℚ ×ₗ (ℚ ×ₗ String)) :=
  toLex (-c.compositeScore,
    toLex (-c.geneTargetScore, toLex (-c.pathwayOverlapScore, c.drugName)))

/-- Ranking order on candidates, via the lexicographic sort key. -/
def candLE (x y : CandidateScore) : Prop := sortKey x ≤ sortKey y

instance : DecidableRel candLE := fun x y =>
  inferInstanceAs (Decidable (sortKey x ≤ sortKey y))

instance : IsTotal CandidateScore candLE := ⟨fun x y => le_total (sortKey x) (sortKey y)⟩

instance : IsTrans CandidateScore candLE := ⟨fun _ _ _ h1 h2 => le_trans h1 h2⟩

/-- Modelled from the spec: the Scorer's full ranked candidate list
(spec section 4.2); one candidate per connected drug node, ranked by
composite score with the specified tie-breaks. -/
def scoreGraph (cfg : ScoringConfig) (g : KnowledgeGraph) : List CandidateScore :=
  List.insertionSort candLE ((g.drugs.filter fun d => isConnected g d).map (scoreDrug cfg g))

/-- Modelled from the spec: rule matching is by drug identifier/tag and
disease identifier/tag set intersection, no fuzzy matching
(spec section 4.3). -/
def drugTags (g : KnowledgeGraph) (drugId : String) : List String :=
  drugId :: ((g.drugs.find? fun d => d.did == drugId).map DrugNode.contraTags).getD []

/-- A rule matches a candidate drug for the graph's disease. -/
def ruleMatches (g : KnowledgeGraph) (r : ContraindicationRule) (drugId : String) : Bool :=
  (r.drugTag ∈ drugTags g drugId) && r.diseaseTag == g.disease

/-- The first rule that both matches and filters the candidate: Absolute
matches always filter; Relative matches filter only under the strictness
flag (spec section 4.3). -/
def blockingRule (strict : Bool) (g : KnowledgeGraph) (rules : List ContraindicationRule)
    (c : CandidateScore) : Option ContraindicationRule :=
  rules.find? fun r => ruleMatches g r c.drugId && (r.severity == Severity.absolute || strict)

/-- Modelled from the spec: the Safety Filter (spec section 4.3);
`drug_filter.py` is not in the repository.  Partitions the ranked list
into admissible and filtered entries, each filtered entry carrying the
triggering rule; candidates themselves are passed through unchanged. -/
def safetyFilter (strict : Bool) (g : KnowledgeGraph) (rules : List ContraindicationRule) :
    List CandidateScore → List CandidateScore × List FilteredEntry
  | [] => ([], [])
  | c :: rest =>
      let p := safetyFilter strict g rules rest
      match blockingRule strict g rules c with
      | some r => (p.1, ⟨c, r⟩ :: p.2)
      | none => (c :: p.1, p.2)

/-- Spec section 7: a malformed threshold or count is rejected before any
Provider call (`InvalidQuery`). -/
def validQuery (q : DiseaseQuery) : Bool :=
  0 ≤ q.minScore && q.minScore ≤ 1 && 1 ≤ q.maxResults

/-- Admissible candidates for a disease, before threshold and truncation. -/
def admissibleOf (cfg : ScoringConfig) (s : ProviderSnapshot)
    (rules : List ContraindicationRule) (d : String) : List CandidateScore :=
  (safetyFilter cfg.strictRelative (buildGraph d s) rules
    (scoreGraph cfg (buildGraph d s))).1

/-- Rule-filtered candidates for a disease. -/
def filteredOf (cfg : ScoringConfig) (s : ProviderSnapshot)
    (rules : List ContraindicationRule) (d : String) : List FilteredEntry :=
  (safetyFilter cfg.strictRelative (buildGraph d s) rules
    (scoreGraph cfg (buildGraph d s))).2

/-- Modelled from the spec: the Result Assembler (spec sections 2 and 6):
disease summary, thresholded and truncated admissible candidates, and the
rule-filtered set with its count. -/
def assembleResult (cfg : ScoringConfig) (q : DiseaseQuery) (s : ProviderSnapshot)
    (rules : List ContraindicationRule) (d : String) : AnalysisResult :=
  let g := buildGraph d s
  { outName := d
    diseaseGenes := g.genes.map GeneNode.gid
    diseasePathways := g.pathways.map PathwayNode.pid
    candidates :=
      ((admissibleOf cfg s rules d).filter fun c =>
        decide (q.minScore ≤ c.compositeScore)).take q.maxResults
    filteredCount := (filteredOf cfg s rules d).length
    filteredDrugs := filteredOf cfg s rules d
    totalNodes := g.genes.length + g.pathways.length + g.drugs.length + 1
    totalEdges := g.edges.length }

/-- Modelled from the spec: the full analysis pipeline (spec sections 2,
4 and 7): validate the query, resolve the disease against the Provider,
build the graph, rank, safety-filter, threshold and truncate. -/
def analyze (cfg : ScoringConfig) (q : DiseaseQuery) (s : ProviderSnapshot)
    (rules : List ContraindicationRule) : Except AnalysisError AnalysisResult :=
  if validQuery q then
    match s.diseaseName with
    | none => Except.error AnalysisError.notFound
    | some d => Except.ok (assembleResult cfg q s rules d)
  else Except.error AnalysisError.invalidQuery

/-- Modelled from the spec: mechanism-compatibility verdict
(spec section 4.4); `clinical_validator.py` is not in the repository. -/
inductive MechVerdict
  | compatible
  | unknown
  | conflicting
deriving DecidableEq, Repr

/-- Modelled from the spec: adverse-event signal strength
(spec section 4.4). -/
inductive AdverseSignal
  | absent
  | weak
  | strong
deriving DecidableEq, Repr

/-- Modelled from the spec: literature evidence direction
(spec section 4.4). -/
inductive LitDirection
  | positive
  | mixed
  | negative
deriving DecidableEq, Repr

/-- Modelled from the spec: risk verdict of a `ValidationReport`
(spec section 3). -/
inductive RiskLevel
  | low
  | medium
  | high
deriving DecidableEq, Repr

/-- Modelled from the spec: the four evidence inputs of the Clinical
Validator (spec section 4.4): active-trial presence, literature evidence
count/direction, adverse-event signal strength, mechanism verdict. -/
structure EvidenceBundle where
  activeTrial : Bool
  litCount : Nat
  litDirection : LitDirection
  adverse : AdverseSignal
  mech : MechVerdict
deriving DecidableEq, Repr

/-- A negative signal is a conflicting mechanism verdict, any
adverse-event signal, or negative literature direction
(spec section 4.4: absence of any negative signal). -/
def hasNegativeSignal (e : EvidenceBundle) : Bool :=
  e.mech == MechVerdict.conflicting
    || e.adverse != AdverseSignal.absent
    || e.litDirection == LitDirection.negative

/-- Modelled from the spec: the Clinical Validator's deterministic risk
rule table over the four evidence inputs (spec section 4.4), written as
an explicit table over the input constructors. -/
def riskLevel (e : EvidenceBundle) : RiskLevel :=
  match e.mech, e.adverse, e.litDirection, e.activeTrial with
  | MechVerdict.conflicting, _, _, _ => RiskLevel.high
  | _, AdverseSignal.strong, _, _ => RiskLevel.high
  | MechVerdict.compatible, AdverseSignal.absent, LitDirection.positive, true => RiskLevel.low
  | MechVerdict.compatible, AdverseSignal.absent, LitDirection.mixed, true => RiskLevel.low
  | MechVerdict.unknown, AdverseSignal.absent, LitDirection.positive, true => RiskLevel.low
  | MechVerdict.unknown, AdverseSignal.absent, LitDirection.mixed, true => RiskLevel.low
  | _, _, _, _ => RiskLevel.medium

/-- Modelled from the spec: the stage vocabulary of the progress stream
(spec sections 4.5 and 6). -/
inductive Stage
  | fetching
  | diseaseFound
  | graphBuilding
  | graphBuilt
  | scoringStage
  | scoredStage
  | explainingStage
  | complete
  | errorStage
  | warningStage
deriving DecidableEq, Repr

/-- The full enumerated stage set of the stream contract
(spec section 6). -/
def allStages : List Stage :=
  [Stage.fetching, Stage.diseaseFound, Stage.graphBuilding, Stage.graphBuilt,
   Stage.scoringStage, Stage.scoredStage, Stage.explainingStage, Stage.complete,
   Stage.errorStage, Stage.warningStage]

/-- A progress notification: a stage plus its message payload
(spec section 4.5). -/
structure ProgressEvent where
  stage : Stage
  message : String
deriving DecidableEq, Repr

/-- Modelled from the spec: how one analysis run can unfold
(spec sections 4.5 and 7): disease unresolvable, primary provider
unreachable, or success with an optional `PartialData` warning and
optional explanation stage. -/
inductive RunOutcome
  | diseaseNotFound
  | providerDown
  | ok (hasWarning : Bool) (withExplain : Bool)
deriving DecidableEq, Repr

/-- Modelled from the spec: the Progress Emitter (spec section 4.5);
the backend stream producer is not in the repository.  Emits the ordered
stage sequence for each run outcome, terminating early with `error` for
fatal conditions and inserting a `warning` for `PartialData`. -/
def progressStream : RunOutcome → List ProgressEvent
  | RunOutcome.diseaseNotFound =>
      [⟨Stage.fetching, "Fetching disease data"⟩,
       ⟨Stage.errorStage, "Disease not found"⟩]
  | RunOutcome.providerDown =>
      [⟨Stage.fetching, "Fetching disease data"⟩,
       ⟨Stage.errorStage, "Provider unavailable"⟩]
  | RunOutcome.ok w e =>
      [⟨Stage.fetching, "Fetching disease data"⟩,
       ⟨Stage.diseaseFound, "Disease found"⟩]
      ++ (if w then [⟨Stage.warningStage, "Secondary source unavailable"⟩] else [])
      ++ [⟨Stage.graphBuilding, "Building knowledge graph"⟩,
          ⟨Stage.graphBuilt, "Graph built"⟩,
          ⟨Stage.scoringStage, "Scoring candidates"⟩,
          ⟨Stage.scoredStage, "Scoring complete"⟩]
      ++ (if e then [⟨Stage.explainingStage, "Generating explanations"⟩] else [])
      ++ [⟨Stage.complete, "Analysis complete"⟩]

/-- The canonical success stage order of the stream contract
(spec section 4.5). -/
def canonicalStages : List Stage :=
  [Stage.fetching, Stage.diseaseFound, Stage.graphBuilding, Stage.graphBuilt,
   Stage.scoringStage, Stage.scoredStage, Stage.explainingStage, Stage.complete]

/-- The canonical order with the terminal `complete` removed; an early
`error` termination follows a prefix of this. -/
def preTerminalStages : List Stage :=
  [Stage.fetching, Stage.diseaseFound, Stage.graphBuilding, Stage.graphBuilt,
   Stage.scoringStage, Stage.scoredStage, Stage.explainingStage]

/-- A stage is terminal when it is `complete` or `error`
(spec section 9: at most one terminal event). -/
def isTerminal (s : Stage) : Bool :=
  s == Stage.complete || s == Stage.errorStage

/-- JSON-like values appearing in the frontend request body. -/
inductive JVal
  | jstr (s : String)
  | jnum (q : ℚ)
  | jnull
deriving DecidableEq, Repr

/-- The analysis request body built by `handleSubmit` in
`src/frontend/src/App.jsx` (and identically in the `App.jsx` variant in
`src/unnamed/part_001`): field for field the object passed to
`JSON.stringify`, with `anthropic_api_key` null when the key input is
empty. -/
def requestBody (diseaseName : String) (topK : ℚ) (minScore : ℚ)
    (apiKey : String) : List (String × JVal) :=
  [("disease_name", JVal.jstr diseaseName),
   ("top_k", JVal.jnum topK),
   ("min_score", JVal.jnum minScore),
   ("anthropic_api_key", if apiKey = "" then JVal.jnull else JVal.jstr apiKey)]

/-- Initial `minScore` state in `src/frontend/src/App.jsx`
(`useState(0.3)`, line 184). -/
def appDefaultMinScore : ℚ := 3 / 10

/-- Initial `minScore` state in the `App.jsx` variant embedded in
`src/unnamed/part_001` (`useState(0.2)`). -/
def altDefaultMinScore : ℚ := 2 / 10

/-- Initial `topK` state in both frontend variants (`useState(10)`). -/
def defaultTopK : ℚ := 10

/-- The component state touched by the stream consumer in both frontend
variants: `streamingStatus`, `results`, `error`.  The payload type of
`complete` events is abstract. -/
structure UIState (ρ : Type) where
  streamingStatus : String
  results : Option ρ
  errorMsg : Option String
deriving DecidableEq, Repr

/-- A parsed `data: <json>` stream event as consumed by both frontend
variants: its `stage`, its `message`, and the `data` payload fields each
branch reads. -/
structure StreamEvent (ρ : Type) where
  stage : String
  message : String
  dName : String
  dGeneCount : Nat
  dPathwayCount : Nat
  dTotalNodes : Nat
  dTotalEdges : Nat
  payload : ρ
deriving DecidableEq, Repr

/-- The status line built for `disease_found` events (both variants). -/
def foundMsg (ev : StreamEvent ρ) : String :=
  "Found: " ++ ev.dName ++ " (" ++ toString ev.dGeneCount ++ " genes, "
    ++ toString ev.dPathwayCount ++ " pathways)"

/-- The status line built for `graph_built` events (both variants). -/
def builtMsg (ev : StreamEvent ρ) : String :=
  "Graph built: " ++ toString ev.dTotalNodes ++ " nodes, "
    ++ toString ev.dTotalEdges ++ " edges"

/-- Per-event state update of the stream consumer in
`src/frontend/src/App.jsx` (lines 227-253): the if/else-if chain over
`data.stage`; events with any other stage (including `warning`) leave the
state unchanged. -/
def handleEventApp (ev : StreamEvent ρ) (st : UIState ρ) : UIState ρ :=
  if ev.stage = "fetching" then { st with streamingStatus := ev.message }
  else if ev.stage = "disease_found" then { st with streamingStatus := foundMsg ev }
  else if ev.stage = "graph_building" then { st with streamingStatus := ev.message }
  else if ev.stage = "graph_built" then { st with streamingStatus := builtMsg ev }
  else if ev.stage = "scoring" then { st with streamingStatus := ev.message }
  else if ev.stage = "scored" then { st with streamingStatus := ev.message }
  else if ev.stage = "explaining" then { st with streamingStatus := ev.message }
  else if ev.stage = "complete" then
    { st with results := some ev.payload, streamingStatus := "Analysis complete!" }
  else if ev.stage = "error" then
    { st with errorMsg := some ev.message, streamingStatus := "" }
  else st

/-- Per-event state update of the stream consumer in the `App.jsx`
variant embedded in `src/unnamed/part_001` (lines 545-567): identical to
`handleEventApp` except for a final branch that sets `streamingStatus`
to the message on `warning` events. -/
def handleEventAlt (ev : StreamEvent ρ) (st : UIState ρ) : UIState ρ :=
  if ev.stage = "fetching" then { st with streamingStatus := ev.message }
  else if ev.stage = "disease_found" then { st with streamingStatus := foundMsg ev }
  else if ev.stage = "graph_building" then { st with streamingStatus := ev.message }
  else if ev.stage = "graph_built" then { st with streamingStatus := builtMsg ev }
  else if ev.stage = "scoring" then { st with streamingStatus := ev.message }
  else if ev.stage = "scored" then { st with streamingStatus := ev.message }
  else if ev.stage = "explaining" then { st with streamingStatus := ev.message }
  else if ev.stage = "complete" then
    { st with results := some ev.payload, streamingStatus := "Analysis complete!" }
  else if ev.stage = "error" then
    { st with errorMsg := some ev.message, streamingStatus := "" }
  else if ev.stage = "warning" then { st with streamingStatus := ev.message }
  else st

/-- The spec's tie-break discipline between two candidates placed in this
order (spec section 4.2): on equal composite score the earlier one has
the higher gene target score; on a further tie the higher pathway
overlap; on a further tie the lexicographically smaller drug name. -/
def tieBreakOrdered (x y : CandidateScore) : Prop :=
  x.compositeScore = y.compositeScore →
    (y.geneTargetScore ≤ x.geneTargetScore ∧
      (x.geneTargetScore = y.geneTargetScore →
        (y.pathwayOverlapScore ≤ x.pathwayOverlapScore ∧
          (x.pathwayOverlapScore = y.pathwayOverlapScore → x.drugName ≤ y.drugName))))

/-- A small concrete scoring configuration (weights sum to 1). -/
def cfg0 : ScoringConfig :=
  { wGene := 2 / 5, wPath := 3 / 10, wProx := 3 / 20, wPrior := 3 / 20
    topK := 5, strictRelative := false }

/-- A small concrete provider snapshot for disease `D0`. -/
def s0 : ProviderSnapshot :=
  { diseaseName := some "D0"
    genes := [⟨"G1", "G1", 9 / 10⟩, ⟨"G2", "G2", 3 / 5⟩]
    pathways := [⟨"P1", "P1", ["G1"]⟩]
    drugs := [⟨"DX", "DrugX", "pain", ["G1"], ["tagX"]⟩]
    edges := [] }

/-- A concrete Absolute contraindication rule hitting drug tag `tagX`
for disease `D0`. -/
def rule0 : ContraindicationRule := ⟨"tagX", "D0", Severity.absolute, "known harm"⟩

/-- A concrete valid query for disease `D0`. -/
def q0 : DiseaseQuery := ⟨"D0", 1 / 5, 10⟩

/-- A concrete parsed stream event with stage `warning`. -/
def evWarn : StreamEvent Unit :=
  { stage := "warning", message := "Partial data", dName := "", dGeneCount := 0
    dPathwayCount := 0, dTotalNodes := 0, dTotalEdges := 0, payload := () }

/-- A concrete parsed stream event with stage `complete`. -/
def evComplete : StreamEvent Unit :=
  { stage := "complete", message := "done", dName := "", dGeneCount := 0
    dPathwayCount := 0, dTotalNodes := 0, dTotalEdges := 0, payload := () }

/-- A concrete initial component state. -/
def st0 : UIState Unit :=
  { streamingStatus := "Starting analysis...", results := none, errorMsg := none }

theorem safetyFilter_perm (strict : Bool) (g : KnowledgeGraph)
    (rules : List ContraindicationRule) (l : List CandidateScore) :
    List.Perm ((safetyFilter strict g rules l).1
      ++ (safetyFilter strict g rules l).2.map FilteredEntry.candidate) l := by
  induction l with
  | nil => simp [safetyFilter]
  | cons c rest ih =>
      cases h : blockingRule strict g rules c with
      | some r =>
          simp only [safetyFilter, h, List.map_cons]
          exact List.perm_middle.trans (ih.cons c)
      | none =>
          simp only [safetyFilter, h, List.cons_append]
          exact ih.cons c

theorem mem_safetyFilter_fst {strict : Bool} {g : KnowledgeGraph}
    {rules : List ContraindicationRule} {l : List CandidateScore} {c : CandidateScore}
    (hm : c ∈ (safetyFilter strict g rules l).1) :
    c ∈ l ∧ blockingRule strict g rules c = none := by
  induction l with
  | nil => simp [safetyFilter] at hm
  | cons a rest ih =>
      cases h : blockingRule strict g rules a with
      | some r =>
          simp only [safetyFilter, h] at hm
          obtain ⟨h1, h2⟩ := ih hm
          exact ⟨List.mem_cons_of_mem a h1, h2⟩
      | none =>
          simp only [safetyFilter, h] at hm
          rcases List.mem_cons.mp hm with hc | hc
          · subst hc; exact ⟨List.mem_cons_self c rest, h⟩
          · obtain ⟨h1, h2⟩ := ih hc
            exact ⟨List.mem_cons_of_mem a h1, h2⟩

theorem analyze_ok {cfg : ScoringConfig} {q : DiseaseQuery} {s : ProviderSnapshot}
    {rules : List ContraindicationRule} {r : AnalysisResult}
    (h : analyze cfg q s rules = Except.ok r) :
    validQuery q = true ∧
      ∃ d, s.diseaseName = some d ∧ r = assembleResult cfg q s rules d := by
  by_cases hq : validQuery q
  · cases hs : s.diseaseName with
    | none => simp [analyze, hq, hs] at h
    | some d =>
        refine ⟨hq, d, rfl, ?_⟩
        simp only [analyze, hq, hs, if_pos] at h
        exact (Except.ok.injEq _ _).mp h |>.symm
  · simp [analyze, hq] at h

theorem candLE_tieBreak {x y : CandidateScore} (h : candLE x y) : tieBreakOrdered x y := by
  intro hc
  unfold candLE sortKey at h
  rw [Prod.Lex.le_iff] at h
  rcases h with h | ⟨_, h⟩
  · exact absurd h (by rw [hc]; exact lt_irrefl _)
  · rw [Prod.Lex.le_iff] at h
    rcases h with h | ⟨he, h⟩
    · refine ⟨le_of_lt (neg_lt_neg_iff.mp h), fun hg => ?_⟩
      exact absurd h (by rw [hg]; exact lt_irrefl _)
    · have hg : x.geneTargetScore = y.geneTargetScore := neg_inj.mp he
      refine ⟨le_of_eq hg.symm, fun _ => ?_⟩
      rw [Prod.Lex.le_iff] at h
      rcases h with h | ⟨he2, h⟩
      · refine ⟨le_of_lt (neg_lt_neg_iff.mp h), fun hp => ?_⟩
        exact absurd h (by rw [hp]; exact lt_irrefl _)
      · exact ⟨le_of_eq (neg_inj.mp he2).symm, fun _ => h⟩

/-- C1: for every candidate drug matched by a contraindication rule of
Absolute severity for the queried disease, and for every value of
`min_score` and `max_results`, that drug does not appear in the
`candidates` (admissible) list of the analysis result. -/
theorem c1_absolute_never_admissible
    (cfg : ScoringConfig) (q : DiseaseQuery) (s : ProviderSnapshot)
    (rules : List ContraindicationRule) (d : String) (res : AnalysisResult)
    (r : ContraindicationRule) (drugId : String)
    (hres : analyze cfg q s rules = Except.ok res)
    (hd : s.diseaseName = some d)
    (hr : r ∈ rules) (habs : r.severity = Severity.absolute)
    (hm : ruleMatches (buildGraph d s) r drugId = true) :
    ∀ c ∈ res.candidates, c.drugId ≠ drugId := by
  obtain ⟨hq, d', hd', hrres⟩ := analyze_ok hres
  rw [hd] at hd'
  injection hd' with hdd
  subst hdd
  subst hrres
  intro c hc hcd
  have hc1 : c ∈ (admissibleOf cfg s rules d).filter
      fun c => decide (q.minScore ≤ c.compositeScore) := by
    simpa only [assembleResult] using List.take_subset _ _ hc
  have hc2 : c ∈ admissibleOf cfg s rules d := (List.mem_filter.mp hc1).1
  have hnone : blockingRule cfg.strictRelative (buildGraph d s) rules c = none :=
    (mem_safetyFilter_fst hc2).2
  have hall := List.find?_eq_none.mp hnone r hr
  apply hall
  rw [hcd]
  simp [hm, habs]

/-- C1 witness: on the concrete snapshot `s0` with the Absolute rule
`rule0`, drug `DX` is absent from the admissible candidates. -/
theorem c1_absolute_never_admissible_witness :
    (assembleResult cfg0 q0 s0 [rule0] "D0").candidates.all
      (fun c => c.drugId != "DX") = true := by
  rw [List.all_eq_true]
  intro c hc
  simpa using c1_absolute_never_admissible cfg0 q0 s0 [rule0] "D0"
    (assembleResult cfg0 q0 s0 [rule0] "D0") rule0 "DX"
    (by have hv : validQuery q0 = true := by norm_num [validQuery, q0]
        simp [analyze, hv, s0])
    rfl (by decide) rfl rfl c hc

/-- C2: two Graph Builder invocations (and the downstream Scorer) against
an identical Provider snapshot for the same disease produce identical
knowledge graphs and identical ranked candidate lists. -/
theorem c2_determinism (cfg : ScoringConfig) (d : String) (s1 s2 : ProviderSnapshot)
    (h : s1 = s2) :
    buildGraph d s1 = buildGraph d s2 ∧
      scoreGraph cfg (buildGraph d s1) = scoreGraph cfg (buildGraph d s2) := by
  subst h
  exact ⟨rfl, rfl⟩

/-- C2 witness at the concrete snapshot `s0`. -/
theorem c2_determinism_witness :
    buildGraph "D0" s0 = buildGraph "D0" s0 ∧
      scoreGraph cfg0 (buildGraph "D0" s0) = scoreGraph cfg0 (buildGraph "D0" s0) :=
  c2_determinism cfg0 "D0" s0 s0 rfl

/-- C3: for a fixed snapshot and rule set, raising `min_score` from `t1`
to `t2 ≥ t1` never increases the admissible candidate count. -/
theorem c3_threshold_monotone
    (cfg : ScoringConfig) (s : ProviderSnapshot) (rules : List ContraindicationRule)
    (n : String) (t1 t2 : ℚ) (k : Nat) (r1 r2 : AnalysisResult)
    (ht : t1 ≤ t2)
    (h1 : analyze cfg ⟨n, t1, k⟩ s rules = Except.ok r1)
    (h2 : analyze cfg ⟨n, t2, k⟩ s rules = Except.ok r2) :
    r2.candidates.length ≤ r1.candidates.length := by
  obtain ⟨_, d1, hd1, hr1⟩ := analyze_ok h1
  obtain ⟨_, d2, hd2, hr2⟩ := analyze_ok h2
  rw [hd1] at hd2
  injection hd2 with hdd
  subst hdd
  subst hr1
  subst hr2
  simp only [assembleResult, List.length_take]
  refine min_le_min (le_refl k) ?_
  refine List.Sublist.length_le ?_
  refine List.monotone_filter_right _ ?_
  intro c hc
  simp only [decide_eq_true_eq] at hc ⊢
  exact le_trans ht hc

/-- C3 witness: on the concrete snapshot `s0`, raising the threshold
from 0 to 0.9 does not increase the candidate count. -/
theorem c3_threshold_monotone_witness :
    (assembleResult cfg0 ⟨"D0", 9 / 10, 10⟩ s0 [] "D0").candidates.length ≤
      (assembleResult cfg0 ⟨"D0", 0, 10⟩ s0 [] "D0").candidates.length :=
  c3_threshold_monotone cfg0 s0 [] "D0" 0 (9 / 10) 10
    (assembleResult cfg0 ⟨"D0", 0, 10⟩ s0 [] "D0")
    (assembleResult cfg0 ⟨"D0", 9 / 10, 10⟩ s0 [] "D0")
    (by norm_num)
    (by have hv : validQuery ⟨"D0", 0, 10⟩ = true := by norm_num [validQuery]
        simp [analyze, hv, s0])
    (by have hv : validQuery ⟨"D0", 9 / 10, 10⟩ = true := by norm_num [validQuery]
        simp [analyze, hv, s0])

/-- C4: the Clinical Validator's risk table satisfies the claimed
precedence: a conflicting mechanism verdict or a strong adverse-event
signal forces High risk regardless of other inputs; otherwise absence of
any negative signal plus active-trial presence yields Low; all other
combinations yield Medium. -/
theorem c4_risk_precedence (e : EvidenceBundle) :
    riskLevel e =
      (if e.mech = MechVerdict.conflicting ∨ e.adverse = AdverseSignal.strong then
        RiskLevel.high
      else if hasNegativeSignal e = false ∧ e.activeTrial = true then RiskLevel.low
      else RiskLevel.medium) := by
  obtain ⟨t, n, ld, adv, m⟩ := e
  cases t <;> cases ld <;> cases adv <;> cases m <;> rfl

/-- C5: in the Scorer's ranked output, any two candidates with equal
composite score are ordered by descending gene target score, then
descending pathway overlap score, then ascending drug name. -/
theorem c5_tiebreak (cfg : ScoringConfig) (g : KnowledgeGraph) :
    List.Pairwise tieBreakOrdered (scoreGraph cfg g) :=
  List.Pairwise.imp (fun h => candLE_tieBreak h) (List.sorted_insertionSort candLE _)

/-- C7: when the disease resolves, analysis yields a valid (non-error)
response even when zero candidates clear the threshold (in which case
`candidates` is `[]`), and `filtered_count` counts exactly the rule-based
removals, independent of `min_score` and `max_results`. -/
theorem c7_empty_result_valid
    (cfg : ScoringConfig) (q : DiseaseQuery) (s : ProviderSnapshot)
    (rules : List ContraindicationRule) (d : String)
    (hq : validQuery q = true) (hd : s.diseaseName = some d) :
    analyze cfg q s rules = Except.ok (assembleResult cfg q s rules d) ∧
    ((admissibleOf cfg s rules d).filter
        (fun c => decide (q.minScore ≤ c.compositeScore)) = [] →
      (assembleResult cfg q s rules d).candidates = []) ∧
    (assembleResult cfg q s rules d).filteredCount = (filteredOf cfg s rules d).length ∧
    (∀ t k, (assembleResult cfg ⟨q.queryName, t, k⟩ s rules d).filteredCount =
      (assembleResult cfg q s rules d).filteredCount) := by
  refine ⟨by simp [analyze, hq, hd], ?_, rfl, fun t k => rfl⟩
  intro h
  simp [assembleResult, h]

/-- C7 witness: on the concrete snapshot `s0` the analysis returns a
structured (non-error) result. -/
theorem c7_empty_result_valid_witness :
    analyze cfg0 q0 s0 [rule0] = Except.ok (assembleResult cfg0 q0 s0 [rule0] "D0") :=
  (c7_empty_result_valid cfg0 q0 s0 [rule0] "D0" (by norm_num [validQuery, q0]) rfl).1

/-- C8: the Safety Filter only reclassifies membership: the admissible
list together with the candidates carried by the filtered entries is a
permutation of the input ranked list, and every output candidate is an
unchanged element of the input (hence every field of every
`CandidateScore` is preserved). -/
theorem c8_filter_preserves_scores (strict : Bool) (g : KnowledgeGraph)
    (rules : List ContraindicationRule) (l : List CandidateScore) :
    List.Perm ((safetyFilter strict g rules l).1
        ++ (safetyFilter strict g rules l).2.map FilteredEntry.candidate) l ∧
    (∀ c ∈ (safetyFilter strict g rules l).1, c ∈ l) ∧
    (∀ e ∈ (safetyFilter strict g rules l).2, e.candidate ∈ l) := by
  refine ⟨safetyFilter_perm strict g rules l, ?_, ?_⟩
  · intro c hc
    exact (safetyFilter_perm strict g rules l).mem_iff.mp (List.mem_append_left _ hc)
  · intro e he
    exact (safetyFilter_perm strict g rules l).mem_iff.mp
      (List.mem_append_right _ (List.mem_map_of_mem _ he))

/-- C9: every progress stream is a finite ordered sequence over the
enumerated stage set; ignoring `warning` events, its stages follow the
canonical order `fetching, disease_found, graph_building, graph_built,
scoring, scored, (explaining), complete`, or end early with `error`
after a prefix of that order; and it contains at most one terminal event
(`complete` or `error`). -/
theorem c9_stream_contract (o : RunOutcome) :
    (∀ e ∈ progressStream o, e.stage ∈ allStages) ∧
    (((((progressStream o).map ProgressEvent.stage).filter
        (fun x => x != Stage.warningStage)).Sublist canonicalStages) ∨
      ((((progressStream o).map ProgressEvent.stage).filter
          (fun x => x != Stage.warningStage)).getLast? = some Stage.errorStage ∧
        ((((progressStream o).map ProgressEvent.stage).filter
          (fun x => x != Stage.warningStage)).dropLast.Sublist preTerminalStages))) ∧
    ((progressStream o).map ProgressEvent.stage).countP isTerminal ≤ 1 := by
  cases o with
  | diseaseNotFound => decide
  | providerDown => decide
  | ok w e => cases w <;> cases e <;> decide

/-- C6 counterexample: the field list the client actually submits is not
`disease_name, min_score, max_results`, and the `src/frontend/src/App.jsx`
default for `min_score` is not 0.2. -/
theorem c6_fields_counterexample :
    ((requestBody "Lupus" 10 (3 / 10) "").map Prod.fst ≠
      ["disease_name", "min_score", "max_results"]) ∧
    appDefaultMinScore ≠ 2 / 10 := by
  constructor
  · decide
  · intro h
    rw [appDefaultMinScore] at h
    norm_num at h

/-- C6 amended: the request body built by `handleSubmit` carries exactly
the fields `disease_name`, `top_k`, `min_score` and `anthropic_api_key`
(in that order), with the disease name, candidate count and threshold
taken from the form state; the `min_score` default is 0.3 in
`src/frontend/src/App.jsx` and 0.2 in the `part_001` variant, and the
`top_k` default is 10. -/
theorem c6_fields_amended (d : String) (k m : ℚ) (key : String) :
    (requestBody d k m key).map Prod.fst =
      ["disease_name", "top_k", "min_score", "anthropic_api_key"] ∧
    (requestBody d k m key).lookup "disease_name" = some (JVal.jstr d) ∧
    (requestBody d k m key).lookup "top_k" = some (JVal.jnum k) ∧
    (requestBody d k m key).lookup "min_score" = some (JVal.jnum m) ∧
    appDefaultMinScore = 3 / 10 ∧ altDefaultMinScore = 2 / 10 ∧ defaultTopK = 10 :=
  ⟨rfl, rfl, rfl, rfl, rfl, rfl, rfl⟩

/-- C10 counterexample: on a `warning` event the two frontend stream
consumers compute different state updates. -/
theorem c10_handlers_counterexample :
    handleEventApp evWarn st0 ≠ handleEventAlt evWarn st0 := by
  decide

/-- C10 amended: the two frontend stream consumers compute identical
per-event state updates for every event whose stage is not `warning`;
on a `warning` event `src/frontend/src/App.jsx` leaves the state
unchanged while the `part_001` variant sets `streamingStatus` to the
event's message. -/
theorem c10_handlers_amended {ρ : Type} (ev : StreamEvent ρ) (st : UIState ρ) :
    (ev.stage ≠ "warning" → handleEventApp ev st = handleEventAlt ev st) ∧
    (ev.stage = "warning" →
      handleEventApp ev st = st ∧
      handleEventAlt ev st = { st with streamingStatus := ev.message }) := by
  constructor
  · intro h
    unfold handleEventApp handleEventAlt
    rw [if_neg h]
  · intro h
    constructor
    · simp [handleEventApp, h]
    · simp [handleEventAlt, h]

/-- C10 amended witness: both handlers agree on a concrete `complete`
event. -/
theorem c10_handlers_amended_witness :
    handleEventApp evComplete st0 = handleEventAlt evComplete st0 :=
  (c10_handlers_amended evComplete st0).1 (by decide)

end Navara
